import Mathlib

/-!
Shallow embedding of the Jumbo Shoo LoRa airtime / compliance / energy
calculator (src/src/App.jsx).  JavaScript numbers are modelled as exact
rationals (ℚ); `Math.ceil` / `Math.floor` become `Int.ceil` / `Int.floor`;
the JavaScript `Infinity` produced for battery life at zero daily draw is
modelled as `none : Option ℚ`.  Every definition mirrors the corresponding
expression of App.jsx line by line.
-/

namespace JumboShoo

/-- Region selector of the calculator: EU 868 MHz or US 915 MHz. -/
inductive Region where
  | eu
  | us
deriving DecidableEq, Repr

/-- The full input parameter set of the calculator (the React state feeding
the computation in App.jsx).  `sf`, `preamble`, `payloadBytes`, `cr` and
`bw` are the integer-valued inputs (bandwidth in kHz); `txPower` is in dBm;
`txIntervalMin`, `voltage` and `battCapacity` are rational-valued. -/
structure Params where
  sf : ℕ
  bw : ℕ
  preamble : ℕ
  payloadBytes : ℕ
  cr : ℕ
  crc : Bool
  explicitHeader : Bool
  ldrManual : Bool
  txPower : ℤ
  voltage : ℚ
  region : Region
  euBand : String
  txIntervalMin : ℚ
  battCapacity : ℚ
deriving DecidableEq, Repr

/-- The effective implicit-header bit of App.jsx line 7:
`(sf === 6 || !explicitHeader) ? 1 : 0`. -/
def effectiveIH (sf : ℕ) (explicitHeader : Bool) : ℚ :=
  if sf = 6 ∨ explicitHeader = false then 1 else 0

/-- `calcAirtime` of App.jsx lines 4-15 (Semtech AN1200.13 formula),
with the bandwidth argument in Hz exactly as the call site passes it. -/
def calcAirtime (sf : ℕ) (bw : ℚ) (preamble payloadBytes cr : ℚ)
    (crc explicitHeader lowDROptimize : Bool) : ℚ :=
  let DE : ℚ := if lowDROptimize then 1 else 0
  let IH : ℚ := effectiveIH sf explicitHeader
  let CRC : ℚ := if crc then 1 else 0
  let t_sym : ℚ := 2 ^ sf / bw * 1000
  let t_preamble : ℚ := (preamble + 4.25) * t_sym
  let inner : ℚ := 8 * payloadBytes - 4 * sf + 28 + 16 * CRC - 20 * IH
  let payload_sym_nb : ℚ := 8 + max ((⌈inner / (4 * (sf - 2 * DE))⌉ : ℚ) * (cr + 4)) 0
  let t_payload : ℚ := payload_sym_nb * t_sym
  t_preamble + t_payload

/-- TX power → drive current table, App.jsx lines 25-27. -/
def TX_CURRENT : List (ℤ × ℚ) :=
  [(2, 13), (5, 17), (8, 22), (11, 26), (14, 31), (17, 87), (20, 120)]

/-- EU sub-band table (id, duty-cycle limit percent), App.jsx lines 56-61. -/
def EU_BANDS : List (String × ℚ) :=
  [("g", 1), ("g1", 1), ("g2", 0.1), ("g3", 10)]

/-- Symbol duration in ms, App.jsx line 83 (`Math.pow(2, sf) / bw` with bw
in kHz, so the value is directly in milliseconds). -/
def tSym_ms (ps : Params) : ℚ := 2 ^ ps.sf / ps.bw

/-- LDRO auto-required flag, App.jsx line 84. -/
def ldrRequired (ps : Params) : Bool := decide (tSym_ms ps > 16)

/-- Effective LDRO flag, App.jsx line 85. -/
def ldrOptimize (ps : Params) : Bool := ldrRequired ps || ps.ldrManual

/-- The airtime computed by the app, App.jsx line 101: `calcAirtime` applied
to the current state with bandwidth converted from kHz to Hz and the
effective LDRO flag. -/
def airtime (ps : Params) : ℚ :=
  calcAirtime ps.sf (ps.bw * 1000) ps.preamble ps.payloadBytes ps.cr
    ps.crc ps.explicitHeader (ldrOptimize ps)

/-- TX current lookup with its fallback, App.jsx line 102
(`TX_CURRENT[txPower] ?? 31`). -/
def current_mA (txPower : ℤ) : ℚ := (TX_CURRENT.lookup txPower).getD 31

/-- Energy per transmission in mJ, App.jsx line 103. -/
def energy_mJ (ps : Params) : ℚ :=
  current_mA ps.txPower / 1000 * ps.voltage * (airtime ps / 1000) * 1000

/-- Charge per transmission in µAh, App.jsx line 104. -/
def energy_uAh (ps : Params) : ℚ :=
  current_mA ps.txPower * (airtime ps / 1000) / 3.6

/-- EU duty limit for the selected sub-band with its fallback,
App.jsx lines 107-108 (`EU_BANDS.find(...)?.duty ?? 1`). -/
def duty_limit (ps : Params) : ℚ :=
  ((EU_BANDS.find? (fun b => b.1 == ps.euBand)).map Prod.snd).getD 1

/-- Duty-cycle percent consumed by one transmission, App.jsx line 109. -/
def duty_used_per_tx (ps : Params) : ℚ := airtime ps / 3600000 * 100

/-- Transmissions per hour, App.jsx line 110 (guarded against a zero
interval). -/
def tx_per_hour (ps : Params) : ℚ :=
  if ps.txIntervalMin > 0 then 60 / ps.txIntervalMin else 0

/-- Duty-cycle percent consumed per hour, App.jsx line 111. -/
def duty_used_per_hour (ps : Params) : ℚ :=
  duty_used_per_tx ps * tx_per_hour ps

/-- Percent of the duty budget consumed, App.jsx line 112. -/
def duty_pct_of_limit (ps : Params) : ℚ :=
  duty_used_per_hour ps / duty_limit ps * 100

/-- Maximum transmissions per hour under the duty limit, App.jsx line 113. -/
def max_tx_per_hour (ps : Params) : ℤ :=
  ⌊duty_limit ps / 100 * 3600000 / airtime ps⌋

/-- Minimum interval between transmissions in seconds, App.jsx line 114. -/
def min_interval_s (ps : Params) : ℚ :=
  airtime ps / (duty_limit ps / 100) / 1000

/-- Re-arm time at a fixed 1 percent duty budget, App.jsx line 117. -/
def rearm_g_s (ps : Params) : ℚ := airtime ps / 0.01 / 1000

/-- Re-arm time at a fixed 10 percent duty budget, App.jsx line 118. -/
def rearm_g3_s (ps : Params) : ℚ := airtime ps / 0.1 / 1000

/-- US dwell-time check, App.jsx line 121. -/
def us_dwell_ok (ps : Params) : Bool := decide (airtime ps ≤ 400)

/-- Daily TX-only charge draw in mAh, App.jsx line 124. -/
def tx_energy_per_day_mAh (ps : Params) : ℚ :=
  energy_uAh ps / 1000 * tx_per_hour ps * 24

/-- Battery life in days, App.jsx line 125; `none` models the JavaScript
`Infinity` branch taken when the daily draw is not positive. -/
def batt_days (ps : Params) : Option ℚ :=
  if tx_energy_per_day_mAh ps > 0 then some (ps.battCapacity / tx_energy_per_day_mAh ps)
  else none

/-- EU duty-cycle compliance verdict, App.jsx line 127. -/
def euCompliant (ps : Params) : Bool :=
  decide (duty_used_per_hour ps ≤ duty_limit ps)

/-- Region-selected compliance verdict, App.jsx line 128. -/
def compliant (ps : Params) : Bool :=
  if ps.region = Region.eu then euCompliant ps else us_dwell_ok ps

/-- Severity level of a configuration warning. -/
inductive Level where
  | error
  | caution
deriving DecidableEq, Repr

/-- A configuration warning record; the label identifies the rule exactly
as in App.jsx (messages are omitted, they carry no further rule identity). -/
structure Warning where
  level : Level
  label : String
deriving DecidableEq, Repr

/-- The ordered warning list built by App.jsx lines 134-199: eight
independent rules, each conditionally appending one warning, evaluated
top to bottom. -/
def warnings (ps : Params) : List Warning :=
  (if ps.region = Region.eu ∧ ps.bw = 500 ∧ ps.euBand = "g3" then
    [⟨Level.error, "BW + Sub-band"⟩] else []) ++
  (if ps.region = Region.eu ∧ ps.bw = 250 ∧ ps.euBand = "g3" then
    [⟨Level.caution, "BW250 + g3"⟩] else []) ++
  (if ps.region = Region.eu ∧ ps.txPower > 14 then
    [⟨Level.error, "TX Power (EU)"⟩] else []) ++
  (if ps.txPower = 20 then
    [⟨Level.caution, "+20 dBm duty limit"⟩] else []) ++
  (if ps.region = Region.us ∧ us_dwell_ok ps = false then
    [⟨Level.error, "US Dwell Time"⟩] else []) ++
  (if ps.region = Region.eu ∧ ps.euBand = "g2" then
    [⟨Level.caution, "g2 sub-band"⟩] else []) ++
  (if ps.preamble < 8 then
    [⟨Level.caution, "Preamble symbols"⟩] else []) ++
  (if ps.sf = 6 ∧ ps.explicitHeader = true then
    [⟨Level.error, "SF6 + Explicit Header"⟩] else [])

/-- Aggregate error flag, App.jsx line 201. -/
def hasErrors (ps : Params) : Bool :=
  (warnings ps).any (fun w => w.level == Level.error)

/-- Aggregate caution flag, App.jsx line 202. -/
def hasCautions (ps : Params) : Bool :=
  (warnings ps).any (fun w => w.level == Level.caution)

/-! Spec-side definitions, written from the wording of spec.md for the
refinement claims (C1 and C2): the airtime formula of section 4.1 with its
derived effective flags, and the warning rule table of section 4.4. -/

/-- Spec section 4.1: low-data-rate optimization is required iff
`2^spreadingFactor / bandwidthHz * 1000 > 16` (bandwidth in Hz). -/
def spec_requiredLDRO (ps : Params) : Bool :=
  decide ((2 : ℚ) ^ ps.sf / (ps.bw * 1000) * 1000 > 16)

/-- Spec section 4.1: the effective LDRO flag is forced true when required,
otherwise equals the manual setting. -/
def spec_effectiveLDRO (ps : Params) : Bool :=
  spec_requiredLDRO ps || ps.ldrManual

/-- Spec section 4.1: the airtime formula stated in the spec, with the
effective flags derived per the spec rules (effective LDRO, effective
header mode, crcEnabled). -/
def spec_airtime (ps : Params) : ℚ :=
  let SF : ℚ := ps.sf
  let BW_Hz : ℚ := ps.bw * 1000
  let DE : ℚ := if spec_effectiveLDRO ps then 1 else 0
  let IH : ℚ := if ps.sf = 6 ∨ ps.explicitHeader = false then 1 else 0
  let CRCbit : ℚ := if ps.crc then 1 else 0
  let t_sym : ℚ := 2 ^ ps.sf / BW_Hz * 1000
  let t_preamble : ℚ := (ps.preamble + 4.25) * t_sym
  let payloadBits : ℚ := 8 * ps.payloadBytes - 4 * SF + 28 + 16 * CRCbit - 20 * IH
  let numerator : ℚ := (⌈payloadBits / (4 * (SF - 2 * DE))⌉ : ℚ) * (ps.cr + 4)
  let payloadSyms : ℚ := 8 + max numerator 0
  t_preamble + payloadSyms * t_sym

/-- Spec section 4.4: the 8-rule warning table, each row paired with its
condition exactly as the table states it (rule 5 is written there as
`airtime > 400 ms`). -/
def specRules (ps : Params) : List (Bool × Warning) :=
  [(decide (ps.region = Region.eu ∧ ps.bw = 500 ∧ ps.euBand = "g3"),
      ⟨Level.error, "BW + Sub-band"⟩),
   (decide (ps.region = Region.eu ∧ ps.bw = 250 ∧ ps.euBand = "g3"),
      ⟨Level.caution, "BW250 + g3"⟩),
   (decide (ps.region = Region.eu ∧ ps.txPower > 14),
      ⟨Level.error, "TX Power (EU)"⟩),
   (decide (ps.txPower = 20),
      ⟨Level.caution, "+20 dBm duty limit"⟩),
   (decide (ps.region = Region.us ∧ airtime ps > 400),
      ⟨Level.error, "US Dwell Time"⟩),
   (decide (ps.region = Region.eu ∧ ps.euBand = "g2"),
      ⟨Level.caution, "g2 sub-band"⟩),
   (decide (ps.preamble < 8),
      ⟨Level.caution, "Preamble symbols"⟩),
   (decide (ps.sf = 6 ∧ ps.explicitHeader = true),
      ⟨Level.error, "SF6 + Explicit Header"⟩)]

/-- Keep a rule's warning exactly when its condition holds. -/
def pickRule (r : Bool × Warning) : Option Warning :=
  if r.1 then some r.2 else none

/-- Spec section 4.4: the warnings the table mandates, i.e. exactly the
rows whose condition holds, with the table level, in table order. -/
def specWarnings (ps : Params) : List Warning :=
  (specRules ps).filterMap pickRule

/-- Copy of a parameter set with another explicit-header request
(all other fields unchanged). -/
def setExplicitHeader (ps : Params) (b : Bool) : Params :=
  ⟨ps.sf, ps.bw, ps.preamble, ps.payloadBytes, ps.cr, ps.crc, b,
   ps.ldrManual, ps.txPower, ps.voltage, ps.region, ps.euBand,
   ps.txIntervalMin, ps.battCapacity⟩

/-- Copy of a parameter set with another EU sub-band selection
(all other fields unchanged). -/
def setBand (ps : Params) (b : String) : Params :=
  ⟨ps.sf, ps.bw, ps.preamble, ps.payloadBytes, ps.cr, ps.crc,
   ps.explicitHeader, ps.ldrManual, ps.txPower, ps.voltage, ps.region, b,
   ps.txIntervalMin, ps.battCapacity⟩

/-- Scenario A of spec section 8: SF=12, BW=125 kHz, CR-offset=2,
payload=12 bytes, preamble=8, CRC on, explicit header requested, region=EU,
sub-band=g, txPower=14 dBm, 15-minute interval. -/
def scenarioA : Params :=
  ⟨12, 125, 8, 12, 2, true, true, false, 14, 3.7, Region.eu, "g", 15, 2000⟩

/-- An input on which warning rules 1 and 8 both apply: region=EU,
BW=500 kHz, sub-band=g3, SF=6, explicit header requested. -/
def bothRulesInput : Params :=
  ⟨6, 500, 8, 12, 2, true, true, false, 14, 3.7, Region.eu, "g3", 15, 2000⟩

/-- An input triggering warning rule 1 but not rule 8. -/
def onlyRule1Input : Params :=
  ⟨12, 500, 8, 12, 2, true, true, false, 14, 3.7, Region.eu, "g3", 15, 2000⟩

/-- An input triggering warning rule 8 but not rule 1. -/
def onlyRule8Input : Params :=
  ⟨6, 125, 8, 12, 2, true, true, false, 14, 3.7, Region.eu, "g", 15, 2000⟩

/-- Scenario A with a zero transmit interval (no scheduled transmissions). -/
def zeroIntervalInput : Params :=
  ⟨12, 125, 8, 12, 2, true, true, false, 14, 3.7, Region.eu, "g", 0, 2000⟩

/-- An EU input at SF=7 where LDRO is not auto-required and the manual
flag is on. -/
def lowSFInput : Params :=
  ⟨7, 125, 8, 12, 2, true, true, true, 14, 3.7, Region.eu, "g", 15, 2000⟩

/-- An EU input at txPower = 20 dBm. -/
def euPower20Input : Params :=
  ⟨12, 125, 8, 12, 2, true, true, false, 20, 3.7, Region.eu, "g", 15, 2000⟩

/-- An input whose EU sub-band id is not one of g, g1, g2, g3. -/
def badBandInput : Params :=
  ⟨12, 125, 8, 12, 2, true, true, false, 14, 3.7, Region.eu, "x", 15, 2000⟩

/-! Helper lemmas shared by the claim theorems. -/

/-- Dividing by a bandwidth given in Hz and rescaling by 1000 is the same
as dividing by the bandwidth in kHz (also at bandwidth 0, where both sides
are 0 under rational division). -/
theorem div_mul_thousand (x b : ℚ) : x / (b * 1000) * 1000 = x / b := by
  rcases eq_or_ne b 0 with rfl | hb
  · simp
  · field_simp
    ring

/-- One step of filtering the rule table. -/
theorem filterMap_pickRule_cons (c : Bool) (w : Warning) (l : List (Bool × Warning)) :
    List.filterMap pickRule ((c, w) :: l) =
      (if c = true then [w] else []) ++ List.filterMap pickRule l := by
  cases c <;> simp [pickRule]

/-- The source LDRO resolution agrees with the spec's Hz-based wording. -/
theorem ldrOptimize_eq_spec (ps : Params) : ldrOptimize ps = spec_effectiveLDRO ps := by
  unfold ldrOptimize ldrRequired tSym_ms spec_effectiveLDRO spec_requiredLDRO
  rw [div_mul_thousand]

/-- C2 check: the source warning list coincides with the spec rule table. -/
theorem warnings_eq_specWarnings (ps : Params) : warnings ps = specWarnings ps := by
  simp only [warnings, specWarnings, specRules, filterMap_pickRule_cons,
    List.filterMap_nil, List.append_nil, decide_eq_true_eq, us_dwell_ok,
    decide_eq_false_iff_not, not_le, gt_iff_lt, List.append_assoc]

/-- C1: for every RFParameterSet in the documented domain (spreadingFactor
in [6,12], bandwidth in 125/250/500 kHz, coding-rate offset in [1,4],
payload in [1,255] bytes, preamble at least 6 symbols), the airtime
returned by calcAirtime equals t_preamble + t_payload of the spec formula,
with DE, IH, CRC the effective flags derived per the spec rules. -/
theorem spec_C1 (ps : Params)
    (hsf1 : 6 ≤ ps.sf) (hsf2 : ps.sf ≤ 12)
    (hbw : ps.bw = 125 ∨ ps.bw = 250 ∨ ps.bw = 500)
    (hcr1 : 1 ≤ ps.cr) (hcr2 : ps.cr ≤ 4)
    (hpl1 : 1 ≤ ps.payloadBytes) (hpl2 : ps.payloadBytes ≤ 255)
    (hpre : 6 ≤ ps.preamble) :
    airtime ps = spec_airtime ps := by
  simp only [airtime, calcAirtime, spec_airtime, effectiveIH, ldrOptimize_eq_spec]

/-- Witness for C1 at the Scenario A parameter set. -/
theorem spec_C1_witness :
    (6 ≤ scenarioA.sf ∧ scenarioA.sf ≤ 12 ∧
      (scenarioA.bw = 125 ∨ scenarioA.bw = 250 ∨ scenarioA.bw = 500) ∧
      1 ≤ scenarioA.cr ∧ scenarioA.cr ≤ 4 ∧
      1 ≤ scenarioA.payloadBytes ∧ scenarioA.payloadBytes ≤ 255 ∧
      6 ≤ scenarioA.preamble) ∧
    airtime scenarioA = spec_airtime scenarioA :=
  ⟨⟨by decide, by decide, by decide, by decide, by decide, by decide,
     by decide, by decide⟩,
   spec_C1 scenarioA (by decide) (by decide) (by decide) (by decide)
     (by decide) (by decide) (by decide) (by decide)⟩

/-- C2: for every input, the validator emits exactly the warnings the spec
rule table mandates, with the table levels, in table order, with no rule
suppressing another; in particular at txPower = 20 dBm in region EU both
rule 3 and rule 4 fire. -/
theorem spec_C2 (ps : Params) :
    warnings ps = specWarnings ps ∧
    (ps.region = Region.eu → ps.txPower = 20 →
      Warning.mk Level.error "TX Power (EU)" ∈ warnings ps ∧
      Warning.mk Level.caution "+20 dBm duty limit" ∈ warnings ps) := by
  refine ⟨warnings_eq_specWarnings ps, fun heu hp => ⟨?_, ?_⟩⟩
  · simp [warnings, heu, hp]
  · simp [warnings, heu, hp]

/-- Witness for C2 at an EU input with txPower = 20 dBm. -/
theorem spec_C2_witness :
    warnings euPower20Input = specWarnings euPower20Input ∧
    Warning.mk Level.error "TX Power (EU)" ∈ warnings euPower20Input ∧
    Warning.mk Level.caution "+20 dBm duty limit" ∈ warnings euPower20Input :=
  ⟨(spec_C2 euPower20Input).1,
   ((spec_C2 euPower20Input).2 rfl rfl).1,
   ((spec_C2 euPower20Input).2 rfl rfl).2⟩

/-- C4: at spreadingFactor = 6 the effective header bit used by the
airtime computation is implicit (IH = 1) regardless of the
explicitHeaderRequested flag (so the airtime does not depend on that
flag), and when explicit header is additionally requested, warning rule 8
fires as an Error. -/
theorem spec_C4 (ps : Params) (h6 : ps.sf = 6) :
    (∀ b : Bool, effectiveIH ps.sf b = 1) ∧
    airtime (setExplicitHeader ps true) = airtime (setExplicitHeader ps false) ∧
    (ps.explicitHeader = true →
      Warning.mk Level.error "SF6 + Explicit Header" ∈ warnings ps) := by
  refine ⟨fun b => by simp [effectiveIH, h6], ?_, fun he => ?_⟩
  · simp [airtime, calcAirtime, setExplicitHeader, effectiveIH, h6,
      ldrOptimize, ldrRequired, tSym_ms]
  · simp [warnings, h6, he]

/-- Witness for C4 at an SF6 input with explicit header requested. -/
theorem spec_C4_witness :
    effectiveIH bothRulesInput.sf false = 1 ∧
    airtime (setExplicitHeader bothRulesInput true) =
      airtime (setExplicitHeader bothRulesInput false) ∧
    Warning.mk Level.error "SF6 + Explicit Header" ∈ warnings bothRulesInput :=
  ⟨(spec_C4 bothRulesInput rfl).1 false,
   (spec_C4 bothRulesInput rfl).2.1,
   (spec_C4 bothRulesInput rfl).2.2 rfl⟩

/-- C5: whenever the symbol duration `2^SF / BW_Hz * 1000` exceeds 16 ms
the effective LDRO flag is true even when the manual setting is false;
otherwise the effective flag equals the manual setting; and the effective
flag is exactly what the airtime computation receives. -/
theorem spec_C5 (ps : Params) :
    ((2 : ℚ) ^ ps.sf / (ps.bw * 1000) * 1000 > 16 → ldrOptimize ps = true) ∧
    (¬ ((2 : ℚ) ^ ps.sf / (ps.bw * 1000) * 1000 > 16) →
      ldrOptimize ps = ps.ldrManual) ∧
    airtime ps = calcAirtime ps.sf (ps.bw * 1000) ps.preamble ps.payloadBytes
      ps.cr ps.crc ps.explicitHeader (ldrOptimize ps) := by
  refine ⟨fun h => ?_, fun h => ?_, rfl⟩
  · have hreq : ldrRequired ps = true := by
      rw [div_mul_thousand] at h
      simpa [ldrRequired, tSym_ms] using h
    simp [ldrOptimize, hreq]
  · have hreq : ldrRequired ps = false := by
      rw [div_mul_thousand] at h
      simpa [ldrRequired, tSym_ms] using h
    simp [ldrOptimize, hreq]

/-- Witness for C5: LDRO forced on at SF12/BW125 with the manual flag off,
and equal to the manual flag at SF7/BW125. -/
theorem spec_C5_witness :
    ((2 : ℚ) ^ scenarioA.sf / (scenarioA.bw * 1000) * 1000 > 16 ∧
      ldrOptimize scenarioA = true) ∧
    (¬ ((2 : ℚ) ^ lowSFInput.sf / (lowSFInput.bw * 1000) * 1000 > 16) ∧
      ldrOptimize lowSFInput = lowSFInput.ldrManual) :=
  ⟨⟨by norm_num [scenarioA], (spec_C5 scenarioA).1 (by norm_num [scenarioA])⟩,
   ⟨by norm_num [lowSFInput], (spec_C5 lowSFInput).2.1 (by norm_num [lowSFInput])⟩⟩

/-- C6 counterexample: warning rules 1 and 8 are not mutually exclusive —
for region=EU, BW=500 kHz, sub-band=g3, SF=6, explicit header requested,
both fire in the same call. -/
theorem spec_C6_cex :
    Warning.mk Level.error "BW + Sub-band" ∈ warnings bothRulesInput ∧
    Warning.mk Level.error "SF6 + Explicit Header" ∈ warnings bothRulesInput := by
  refine ⟨?_, ?_⟩ <;> decide

/-- C6 amended: rules 1 and 8 overlap (both fire for EU, BW=500, g3, SF=6,
explicit-header inputs), while each is independently testable by a minimal
input triggering exactly one of the two. -/
theorem spec_C6_amended :
    (Warning.mk Level.error "BW + Sub-band" ∈ warnings bothRulesInput ∧
      Warning.mk Level.error "SF6 + Explicit Header" ∈ warnings bothRulesInput) ∧
    (Warning.mk Level.error "BW + Sub-band" ∈ warnings onlyRule1Input ∧
      Warning.mk Level.error "SF6 + Explicit Header" ∉ warnings onlyRule1Input) ∧
    (Warning.mk Level.error "SF6 + Explicit Header" ∈ warnings onlyRule8Input ∧
      Warning.mk Level.error "BW + Sub-band" ∉ warnings onlyRule8Input) := by
  refine ⟨⟨?_, ?_⟩, ⟨?_, ?_⟩, ⟨?_, ?_⟩⟩ <;> decide

/-- C8: a zero transmit interval yields a zero transmission rate, which
propagates to zero hourly duty use, zero daily charge draw, and infinite
battery life (the `none` branch), with every quantity still defined. -/
theorem spec_C8 (ps : Params) (h : ps.txIntervalMin = 0) :
    tx_per_hour ps = 0 ∧ duty_used_per_hour ps = 0 ∧
    tx_energy_per_day_mAh ps = 0 ∧ batt_days ps = none := by
  have h1 : tx_per_hour ps = 0 := by simp [tx_per_hour, h]
  have h2 : duty_used_per_hour ps = 0 := by simp [duty_used_per_hour, h1]
  have h3 : tx_energy_per_day_mAh ps = 0 := by simp [tx_energy_per_day_mAh, h1]
  exact ⟨h1, h2, h3, by simp [batt_days, h3]⟩

/-- Witness for C8 at Scenario A with the interval set to zero. -/
theorem spec_C8_witness :
    zeroIntervalInput.txIntervalMin = 0 ∧
    tx_per_hour zeroIntervalInput = 0 ∧
    duty_used_per_hour zeroIntervalInput = 0 ∧
    tx_energy_per_day_mAh zeroIntervalInput = 0 ∧
    batt_days zeroIntervalInput = none :=
  ⟨rfl, (spec_C8 zeroIntervalInput rfl).1, (spec_C8 zeroIntervalInput rfl).2.1,
   (spec_C8 zeroIntervalInput rfl).2.2.1, (spec_C8 zeroIntervalInput rfl).2.2.2⟩

/-- C9: every key of the TX current table resolves to that key's current,
and every non-key resolves to 31 mA, which is exactly the table's entry
for 14 dBm. -/
theorem spec_C9 (p : ℤ) :
    (∀ c : ℚ, (p, c) ∈ TX_CURRENT → current_mA p = c) ∧
    (p ∉ TX_CURRENT.map Prod.fst → current_mA p = 31) ∧
    TX_CURRENT.lookup 14 = some 31 := by
  refine ⟨fun c hc => ?_, fun hp => ?_, by decide⟩
  · simp only [TX_CURRENT, List.mem_cons, List.not_mem_nil, or_false,
      Prod.mk.injEq] at hc
    rcases hc with ⟨rfl, rfl⟩ | ⟨rfl, rfl⟩ | ⟨rfl, rfl⟩ | ⟨rfl, rfl⟩ |
      ⟨rfl, rfl⟩ | ⟨rfl, rfl⟩ | ⟨rfl, rfl⟩ <;> decide
  · simp only [TX_CURRENT, List.map_cons, List.map_nil, List.mem_cons,
      List.not_mem_nil, or_false, not_or] at hp
    obtain ⟨h2, h5, h8, h11, h14, h17, h20⟩ := hp
    simp [current_mA, TX_CURRENT, List.lookup,
      beq_eq_false_iff_ne.mpr h2, beq_eq_false_iff_ne.mpr h5,
      beq_eq_false_iff_ne.mpr h8, beq_eq_false_iff_ne.mpr h11,
      beq_eq_false_iff_ne.mpr h14, beq_eq_false_iff_ne.mpr h17,
      beq_eq_false_iff_ne.mpr h20]

/-- Witness for C9 at key 5 dBm and non-key 13 dBm. -/
theorem spec_C9_witness :
    ((5 : ℤ), (17 : ℚ)) ∈ TX_CURRENT ∧ current_mA 5 = 17 ∧
    (13 : ℤ) ∉ TX_CURRENT.map Prod.fst ∧ current_mA 13 = 31 :=
  ⟨by decide, (spec_C9 5).1 17 (by decide), by decide,
   (spec_C9 13).2.1 (by decide)⟩

/-- Concrete evaluation: the airtime at the Scenario A parameter set is
exactly 1253.376 ms (t_sym = 32.768 ms, 12.25 preamble symbols plus
8 + ceil(92/40) * 6 = 26 payload symbols). -/
theorem airtime_scenarioA : airtime scenarioA = 156672 / 125 := by
  norm_num [airtime, calcAirtime, effectiveIH, ldrOptimize, ldrRequired,
    tSym_ms, scenarioA]
  rw [show (⌈(23 / 10 : ℚ)⌉ : ℤ) = 3 from by norm_num [Int.ceil_eq_iff]]
  norm_num

/-- Concrete evaluation: the sub-band g duty limit is 1 percent. -/
theorem duty_limit_scenarioA : duty_limit scenarioA = 1 := by decide

/-- Concrete evaluation: hourly duty use at Scenario A is exactly
0.139264 percent (4 transmissions per hour at a 15-minute interval). -/
theorem duty_used_per_hour_scenarioA :
    duty_used_per_hour scenarioA = 2176 / 15625 := by
  rw [duty_used_per_hour, duty_used_per_tx, airtime_scenarioA]
  norm_num [tx_per_hour, scenarioA]

/-- Concrete evaluation: no warnings fire at Scenario A. -/
theorem warnings_scenarioA : warnings scenarioA = [] := by decide

/-- C3 counterexample: at the Scenario A parameters the code computes an
airtime of 1253.376 ms, which is not within 0.5 ms of the 452.6 ms the
claim states. -/
theorem spec_C3_cex : ¬ (|airtime scenarioA - 452.6| ≤ 0.5) := by
  rw [airtime_scenarioA, not_le]
  exact lt_of_lt_of_le (by norm_num) (le_abs_self _)

/-- C3 amended: at Scenario A the airtime is 1253.376 ms (within 0.5 ms of
1253.4 ms), the effective LDRO flag is true, the duty used per hour at a
15-minute interval is exactly 0.139264 percent (within 0.0001 of 0.1393),
the result is compliant, and no Error-level warnings are emitted. -/
theorem spec_C3_amended :
    airtime scenarioA = 156672 / 125 ∧
    |airtime scenarioA - 1253.4| ≤ 0.5 ∧
    ldrOptimize scenarioA = true ∧
    duty_used_per_hour scenarioA = 2176 / 15625 ∧
    |duty_used_per_hour scenarioA - 0.1393| ≤ 0.0001 ∧
    compliant scenarioA = true ∧
    (∀ w ∈ warnings scenarioA, w.level ≠ Level.error) := by
  have heu : euCompliant scenarioA = true := by
    simp only [euCompliant, duty_used_per_hour_scenarioA, duty_limit_scenarioA,
      decide_eq_true_eq]
    norm_num
  have hldr : ldrOptimize scenarioA = true := by
    norm_num [ldrOptimize, ldrRequired, tSym_ms, scenarioA]
  refine ⟨airtime_scenarioA, ?_, hldr, duty_used_per_hour_scenarioA, ?_,
    ?_, ?_⟩
  · rw [airtime_scenarioA, abs_le]
    constructor <;> norm_num
  · rw [duty_used_per_hour_scenarioA, abs_le]
    constructor <;> norm_num
  · have hr : scenarioA.region = Region.eu := rfl
    simp [compliant, hr, heu]
  · intro w hw
    rw [warnings_scenarioA] at hw
    exact absurd hw (List.not_mem_nil w)

/-- Concrete evaluation: the floor-limited maximum transmissions per hour
at Scenario A is 28. -/
theorem max_tx_scenarioA : max_tx_per_hour scenarioA = 28 := by
  rw [max_tx_per_hour, airtime_scenarioA, duty_limit_scenarioA]
  rw [show ((1 : ℚ) / 100 * 3600000 / (156672 / 125)) = 15625 / 544 from by
    norm_num]
  rw [Int.floor_eq_iff]
  norm_num

/-- Concrete evaluation: the minimum transmit interval at Scenario A is
125.3376 s. -/
theorem min_interval_scenarioA : min_interval_s scenarioA = 78336 / 625 := by
  rw [min_interval_s, airtime_scenarioA, duty_limit_scenarioA]
  norm_num

/-- C7 counterexample: at Scenario A the product of the floor-limited
maximum transmissions per hour and the minimum interval is 3509.4528 s,
more than 90 s short of the 3600 s duty window — a truncation gap far
beyond floating rounding. -/
theorem spec_C7_cex :
    (max_tx_per_hour scenarioA : ℚ) * min_interval_s scenarioA = 2193408 / 625 ∧
    3600 - (max_tx_per_hour scenarioA : ℚ) * min_interval_s scenarioA > 90 := by
  rw [max_tx_scenarioA, min_interval_scenarioA]
  norm_num

/-- C7 amended: for every EU input with positive airtime and positive duty
limit, the product maxTxPerHour * minIntervalSeconds approximates the
3600-second duty window to within one minimum interval: it never exceeds
3600 s and falls short by strictly less than minIntervalSeconds. -/
theorem spec_C7_amended (ps : Params) (heu : ps.region = Region.eu)
    (ha : 0 < airtime ps) (hd : 0 < duty_limit ps) :
    (max_tx_per_hour ps : ℚ) * min_interval_s ps ≤ 3600 ∧
    3600 - min_interval_s ps < (max_tx_per_hour ps : ℚ) * min_interval_s ps := by
  have had : airtime ps ≠ 0 := ne_of_gt ha
  have hdd : duty_limit ps ≠ 0 := ne_of_gt hd
  unfold max_tx_per_hour min_interval_s
  have hX0 : 0 < duty_limit ps / 100 * 3600000 / airtime ps :=
    div_pos (mul_pos (div_pos hd (by norm_num)) (by norm_num)) ha
  set X : ℚ := duty_limit ps / 100 * 3600000 / airtime ps with hXdef
  have hXne : X ≠ 0 := ne_of_gt hX0
  have hmin : airtime ps / (duty_limit ps / 100) / 1000 = 3600 / X := by
    rw [hXdef]
    field_simp
    ring
  rw [hmin]
  have hq : 0 < 3600 / X := div_pos (by norm_num) hX0
  constructor
  · calc (⌊X⌋ : ℚ) * (3600 / X) ≤ X * (3600 / X) :=
          mul_le_mul_of_nonneg_right (Int.floor_le X) (le_of_lt hq)
      _ = 3600 := by field_simp
  · have h2 := mul_lt_mul_of_pos_right (Int.sub_one_lt_floor X) hq
    have e : (X - 1) * (3600 / X) = 3600 - 3600 / X := by
      field_simp
      ring
    rw [e] at h2
    exact h2

/-- Witness for C7 amended at Scenario A. -/
theorem spec_C7_witness :
    scenarioA.region = Region.eu ∧ 0 < airtime scenarioA ∧
    0 < duty_limit scenarioA ∧
    (max_tx_per_hour scenarioA : ℚ) * min_interval_s scenarioA ≤ 3600 ∧
    3600 - min_interval_s scenarioA <
      (max_tx_per_hour scenarioA : ℚ) * min_interval_s scenarioA := by
  have ha : 0 < airtime scenarioA := by
    rw [airtime_scenarioA]
    norm_num
  have hd : 0 < duty_limit scenarioA := by
    rw [duty_limit_scenarioA]
    norm_num
  exact ⟨rfl, ha, hd, (spec_C7_amended scenarioA rfl ha hd).1,
    (spec_C7_amended scenarioA rfl ha hd).2⟩

/-- C10: when the selected EU sub-band id is not one of g, g1, g2, g3, the
duty limit silently falls back to 1 percent, and every EU duty metric and
the compliance verdict coincide with what the 1-percent sub-band g would
produce. -/
theorem spec_C10 (ps : Params) (h : ps.euBand ∉ ["g", "g1", "g2", "g3"]) :
    duty_limit ps = 1 ∧
    duty_used_per_hour ps = duty_used_per_hour (setBand ps "g") ∧
    duty_pct_of_limit ps = duty_pct_of_limit (setBand ps "g") ∧
    max_tx_per_hour ps = max_tx_per_hour (setBand ps "g") ∧
    min_interval_s ps = min_interval_s (setBand ps "g") ∧
    euCompliant ps = euCompliant (setBand ps "g") ∧
    compliant ps = compliant (setBand ps "g") := by
  simp only [List.mem_cons, List.not_mem_nil, or_false, not_or] at h
  obtain ⟨h1, h2, h3, h4⟩ := h
  have hd : duty_limit ps = 1 := by
    simp [duty_limit, EU_BANDS, List.find?,
      beq_eq_false_iff_ne.mpr (Ne.symm h1), beq_eq_false_iff_ne.mpr (Ne.symm h2),
      beq_eq_false_iff_ne.mpr (Ne.symm h3), beq_eq_false_iff_ne.mpr (Ne.symm h4)]
  have hg : duty_limit (setBand ps "g") = 1 := by
    simp [duty_limit, setBand, EU_BANDS, List.find?]
  have heuc : euCompliant ps = euCompliant (setBand ps "g") := by
    unfold euCompliant
    rw [hd, hg]
    rfl
  refine ⟨hd, rfl, ?_, ?_, ?_, heuc, ?_⟩
  · unfold duty_pct_of_limit
    rw [hd, hg]
    rfl
  · unfold max_tx_per_hour
    rw [hd, hg]
    rfl
  · unfold min_interval_s
    rw [hd, hg]
    rfl
  · unfold compliant
    rw [heuc]
    rfl

/-- Witness for C10 at an input whose sub-band id is the unknown "x". -/
theorem spec_C10_witness :
    badBandInput.euBand ∉ ["g", "g1", "g2", "g3"] ∧
    duty_limit badBandInput = 1 ∧
    max_tx_per_hour badBandInput = max_tx_per_hour (setBand badBandInput "g") := by
  have h : badBandInput.euBand ∉ ["g", "g1", "g2", "g3"] := by decide
  exact ⟨h, (spec_C10 badBandInput h).1, (spec_C10 badBandInput h).2.2.2.1⟩

end JumboShoo
